import Mathlib

/-!
Shallow embedding of `src/app.py` (population-dynamics dashboard for the
Netherlands) and verification of the specification's claims about its
reshaping and forecasting logic.

Numeric values (pandas/numpy floats and ints) are modelled by `ℚ`; the one
value-level float special case the code tests for, `NaN`, is modelled by
`Option ℚ` (`none` = NaN) where it matters (`format_number`).
-/

namespace PopDyn

/-- Does `n` occur as a contiguous sublist of the second argument? -/
def infixAt (n : List Char) : List Char → Bool
  | [] => n.isEmpty
  | c :: t => n.isPrefixOf (c :: t) || infixAt n t

/-- Does `needle` occur as a contiguous substring of `hay`?  Embeds the
pandas `str.contains('\\(PV\\)')` regex test, whose pattern matches the
literal text `(PV)`. -/
def containsStr (needle hay : String) : Bool :=
  infixAt needle.data hay.data

/-- One row of the source CSV after the `load_data` sex filter; only the
columns the program reads are kept.  Field names follow the CSV columns
(`Regions Label`, `Periods Label`, `PopulationOn31December_20`, ...). -/
structure Record where
  region : String
  sexLabel : String
  year : ℤ
  popDensity : ℚ
  liveBorn : ℚ
  deaths : ℚ
  naturalIncrease : ℚ
  totalArrivals : ℚ
  immigration : ℚ
  munArrivals : ℚ
  totalDepartures : ℚ
  emigration : ℚ
  munDepartures : ℚ
  pop : ℚ
deriving DecidableEq

/-- Row constructor for examples: region, year and population, all other
measures zero. -/
def mkRow (region : String) (year : ℤ) (pop : ℚ) : Record :=
  { region := region, sexLabel := "Total male and female", year := year,
    popDensity := 0, liveBorn := 0, deaths := 0, naturalIncrease := 0,
    totalArrivals := 0, immigration := 0, munArrivals := 0,
    totalDepartures := 0, emigration := 0, munDepartures := 0, pop := pop }

/-! ### The quadratic least-squares forecaster

`create_prediction_chart` and its provincial/municipal variants fit
`PolynomialFeatures(degree=2)` + `LinearRegression` to the (year,
population) samples of one region and evaluate the fit at the future
years.  The design row for a sample `x` is `(1, x, x²)`; the fitted
coefficients are the least-squares solution of the resulting system.
When the normal-equation matrix is invertible (at least three distinct
years, the case for all real data) the solution is unique and given by
Cramer's rule.  scipy's `lstsq` (used by sklearn) is total: on a
rank-deficient system it returns a least-squares solution rather than
raising; the embedding likewise returns a least-squares solution in each
rank class (any two least-squares solutions agree on the sample points). -/

/-- `k`-th power sum `Σ xᵢᵏ` of the sample years: the entries of the
normal-equation (Gram) matrix `XᵀX` for the design `(1, x, x²)`. -/
def powS (pts : List (ℚ × ℚ)) (k : ℕ) : ℚ :=
  (pts.map (fun p => p.1 ^ k)).sum

/-- Moment `Σ yᵢ·xᵢᵏ`: the entries of the right-hand side `Xᵀy`. -/
def momS (pts : List (ℚ × ℚ)) (k : ℕ) : ℚ :=
  (pts.map (fun p => p.2 * p.1 ^ k)).sum

/-- Determinant of the 3×3 normal-equation matrix
`[[S₀,S₁,S₂],[S₁,S₂,S₃],[S₂,S₃,S₄]]`. -/
def detM (pts : List (ℚ × ℚ)) : ℚ :=
  let s0 := powS pts 0; let s1 := powS pts 1; let s2 := powS pts 2
  let s3 := powS pts 3; let s4 := powS pts 4
  s0 * (s2 * s4 - s3 * s3) - s1 * (s1 * s4 - s3 * s2) + s2 * (s1 * s3 - s2 * s2)

/-- Cramer's-rule solution `(a, b, c)` of the normal equations, the unique
least-squares quadratic when `detM pts ≠ 0`. -/
def cramerFit (pts : List (ℚ × ℚ)) : ℚ × ℚ × ℚ :=
  let s0 := powS pts 0; let s1 := powS pts 1; let s2 := powS pts 2
  let s3 := powS pts 3; let s4 := powS pts 4
  let t0 := momS pts 0; let t1 := momS pts 1; let t2 := momS pts 2
  let d := detM pts
  let da := t0 * (s2 * s4 - s3 * s3) - s1 * (t1 * s4 - s3 * t2) + s2 * (t1 * s3 - s2 * t2)
  let db := s0 * (t1 * s4 - s3 * t2) - t0 * (s1 * s4 - s3 * s2) + s2 * (s1 * t2 - t1 * s2)
  let dc := s0 * (s2 * t2 - t1 * s3) - s1 * (s1 * t2 - t1 * s2) + t0 * (s1 * s3 - s2 * s2)
  (da / d, db / d, dc / d)

/-- Mean of the populations recorded at year `x` (used in the
rank-deficient branches). -/
def groupMeanY (pts : List (ℚ × ℚ)) (x : ℚ) : ℚ :=
  let g := pts.filter (fun p => p.1 == x)
  (g.map (fun p => p.2)).sum / (g.length : ℚ)

/-- Least-squares solution returned in the rank-deficient case
(`detM pts = 0`, which forces at most two distinct sample years).  One
distinct year: the constant fit through the mean.  Two distinct years:
the line through the two group means (exactly the fitted values of any
least-squares solution there).  The remaining patterns are unreachable
when `detM pts = 0`. -/
def degenerateFit (pts : List (ℚ × ℚ)) : ℚ × ℚ × ℚ :=
  match (pts.map (fun p => p.1)).dedup with
  | [] => (0, 0, 0)
  | [x] => (groupMeanY pts x, 0, 0)
  | [x1, x2] =>
      let m1 := groupMeanY pts x1
      let m2 := groupMeanY pts x2
      let b := (m2 - m1) / (x2 - x1)
      (m1 - b * x1, b, 0)
  | _ => (0, 0, 0)

/-- The fitted quadratic coefficients `(a, b, c)` for one region's
samples: the combined intercept-plus-coefficients result of
`LinearRegression().fit(PolynomialFeatures(degree=2).fit_transform(X), y)`. -/
def fitQuadratic (pts : List (ℚ × ℚ)) : ℚ × ℚ × ℚ :=
  if detM pts = 0 then degenerateFit pts else cramerFit pts

/-- Evaluate the fitted quadratic `a + b·x + c·x²` at `x`
(`model.predict` on the polynomial features of `x`). -/
def evalQuad (c : ℚ × ℚ × ℚ) (x : ℚ) : ℚ :=
  c.1 + c.2.1 * x + c.2.2 * x ^ 2

/-- Sum of squared residuals of the samples w.r.t. a quadratic. -/
def SSE (pts : List (ℚ × ℚ)) (c : ℚ × ℚ × ℚ) : ℚ :=
  (pts.map (fun p => (p.2 - evalQuad c p.1) ^ 2)).sum

/-- `k`-th normal-equation residual `Σ xᵢᵏ·(yᵢ - q(xᵢ))`; the normal
equations say these vanish for `k = 0, 1, 2`. -/
def normalRes (pts : List (ℚ × ℚ)) (c : ℚ × ℚ × ℚ) (k : ℕ) : ℚ :=
  (pts.map (fun p => p.1 ^ k * (p.2 - evalQuad c p.1))).sum

/-- `c` is a least-squares quadratic for the samples `pts`. -/
def IsLeastSquares (pts : List (ℚ × ℚ)) (c : ℚ × ℚ × ℚ) : Prop :=
  ∀ c' : ℚ × ℚ × ℚ, SSE pts c ≤ SSE pts c'

/-! ### `create_prediction_chart` (lines 254–337) -/

/-- `provinces = df[df['Regions Label'].str.contains('\\(PV\\)')]`. -/
def pvRows (df : List Record) : List Record :=
  df.filter (fun r => containsStr "(PV)" r.region)

/-- `last_historical_year = df['Periods Label'].max()`. -/
def lastHistoricalYear (df : List Record) : ℤ :=
  match df.map (fun r => r.year) with
  | [] => 0
  | y :: ys => ys.foldl max y

/-- `future_years = list(range(last_historical_year + 1, last_historical_year + 11))`. -/
def futureYears (df : List Record) : List ℤ :=
  (List.range 10).map (fun i : ℕ => lastHistoricalYear df + 1 + (i : ℤ))

/-- `rows[rows['Regions Label'] == p]`. -/
def regionRows (rows : List Record) (p : String) : List Record :=
  rows.filter (fun r => r.region == p)

/-- The (year, population) samples of a block of rows, in row order
(`X = ...['Periods Label'].values`, `y = ...['PopulationOn31December_20'].values`). -/
def seriesOf (rows : List Record) : List (ℚ × ℚ) :=
  rows.map (fun r => ((r.year : ℚ), r.pop))

/-- Fit the quadratic to the samples and evaluate it at the given years:
`model.predict(poly.transform(future_X))`. -/
def fitAndPredict (pts : List (ℚ × ℚ)) (ts : List ℤ) : List ℚ :=
  ts.map (fun t : ℤ => evalQuad (fitQuadratic pts) (t : ℚ))

/-- Fuel-driven worker for `uniqueFirst`; the fuel only bounds the
recursion depth (any fuel `≥ l.length` gives the same result). -/
def uniqueFirstAux : ℕ → List String → List String
  | 0, _ => []
  | _ + 1, [] => []
  | fuel + 1, x :: xs => x :: uniqueFirstAux fuel (xs.filter (fun s => s != x))

/-- First-occurrence deduplication: pandas `Series.unique()`. -/
def uniqueFirst (l : List String) : List String :=
  uniqueFirstAux l.length l

/-- `provinces['Regions Label'].unique()`. -/
def provinceList (df : List Record) : List String :=
  uniqueFirst ((pvRows df).map (fun r => r.region))

/-- The prediction vector computed for one province inside the
`for province in provinces[...].unique()` loop (lines 265–283): the
rows are taken in dataframe order, unsorted. -/
def nationalLoopPredictions (df : List Record) (p : String) : List ℚ :=
  fitAndPredict (seriesOf (regionRows (pvRows df) p)) (futureYears df)

/-- `all_predictions`, one prediction vector per province. -/
def allPredictions (df : List Record) : List (List ℚ) :=
  (provinceList df).map (nationalLoopPredictions df)

/-- `total_predictions = np.sum(all_predictions, axis=0)`: elementwise sum
of the ten-entry per-province prediction vectors. -/
def totalPredictions (df : List Record) : List ℚ :=
  (allPredictions df).foldr (fun l acc => List.zipWith (· + ·) l acc)
    (List.replicate 10 0)

/-- `df[df['Regions Label'] == 'The Netherlands']`. -/
def nationalRows (df : List Record) : List Record :=
  df.filter (fun r => r.region == "The Netherlands")

/-- `.sort_values('Periods Label')`. -/
def sortByYear (rows : List Record) : List Record :=
  List.insertionSort (fun a b => a.year ≤ b.year) rows

/-- The x-values of the chart's historical trace: the national rows'
years, sorted ascending. -/
def historicalYears (df : List Record) : List ℤ :=
  (sortByYear (nationalRows df)).map (fun r => r.year)

/-- The year axis of the full forecast series: the historical prefix
followed by the predicted suffix. -/
def fullSeriesYears (df : List Record) : List ℤ :=
  historicalYears df ++ futureYears df

/-- `confidence_x = future_years + future_years[::-1]` (line 315). -/
def confX (df : List Record) : List ℤ :=
  futureYears df ++ (futureYears df).reverse

/-- `confidence_y = np.concatenate([total_predictions * 1.05,
(total_predictions * 0.95)[::-1]])` (line 316). -/
def confY (df : List Record) : List ℚ :=
  (totalPredictions df).map (fun p => p * 1.05) ++
    ((totalPredictions df).map (fun p => p * 0.95)).reverse

/-! ### `create_provincial_prediction_chart` (lines 339–404)

The municipal variant (lines 406–471) is line-for-line identical except
for the selection list, so the same embedding covers it. -/

/-- The prediction vector for one selected province: here the rows are
sorted by year before fitting (line 348). -/
def provincialPredictions (df : List Record) (p : String) : List ℚ :=
  fitAndPredict (seriesOf (sortByYear (regionRows df p))) (futureYears df)

/-- Adjacent years increase by exactly one along the list. -/
def chainB : List ℤ → Bool
  | [] => true
  | [_] => true
  | a :: b :: t => (a + 1 == b) && chainB (b :: t)

/-! ### `format_number` (lines 19–22) and the metric displays

`format_number` returns `"N/A"` on NaN (`pd.isna`) and otherwise
`f-string`-formats `int(num)` with comma thousands separators.  `int()`
on a float truncates toward zero. -/

/-- Decimal digit character. -/
def digitChar : ℕ → Char
  | 0 => '0' | 1 => '1' | 2 => '2' | 3 => '3' | 4 => '4'
  | 5 => '5' | 6 => '6' | 7 => '7' | 8 => '8' | _ => '9'

/-- Fuel-driven base-10 digit extraction, least significant first; any
fuel `≥ m` suffices. -/
def natDigitsAux : ℕ → ℕ → List Char
  | 0, _ => []
  | _ + 1, 0 => []
  | fuel + 1, m => digitChar (m % 10) :: natDigitsAux fuel (m / 10)

/-- Decimal digits of a natural number as characters, least significant
first (`[ '0' ]` for zero). -/
def natDigitsRev (m : ℕ) : List Char :=
  if m = 0 then ['0'] else natDigitsAux m m

/-- Plain decimal string of a natural number. -/
def natStr (m : ℕ) : String :=
  ⟨(natDigitsRev m).reverse⟩

/-- Fuel-driven worker for `group3`; any fuel `≥ ds.length` suffices. -/
def group3Aux : ℕ → List Char → List Char
  | 0, ds => ds
  | fuel + 1, ds =>
      if ds.length ≤ 3 then ds
      else ds.take 3 ++ ',' :: group3Aux fuel (ds.drop 3)

/-- Insert a `','` after every group of three characters, working on a
least-significant-first digit list. -/
def group3 (ds : List Char) : List Char :=
  group3Aux ds.length ds

/-- Python's `f"..:,"` thousands-separator format of an integer. -/
def commaFormat (n : ℤ) : String :=
  (if n < 0 then "-" else "") ++ ⟨(group3 (natDigitsRev n.natAbs)).reverse⟩

/-- Plain decimal string of an integer (no separators): the reference
reading of "the integer formatted in decimal". -/
def decimalRepr (n : ℤ) : String :=
  (if n < 0 then "-" else "") ++ natStr n.natAbs

/-- Remove every comma from a string. -/
def stripCommas (s : String) : String :=
  ⟨s.data.filter (fun c => c != ',')⟩

/-- Python `int()` applied to a rational: truncation toward zero. -/
def truncInt (q : ℚ) : ℤ :=
  q.num.tdiv (q.den : ℤ)

/-- `format_number` (lines 19–22); NaN is modelled by `none`. -/
def formatNumber : Option ℚ → String
  | none => "N/A"
  | some q => commaFormat (truncInt q)

/-- Python `f"..:.1f"` one-decimal format, modelled as rounding to the
nearest tenth (the source formats a float; ties differ only on exact
half-tenths, which no claim exercises). -/
def fmt1 (q : ℚ) : String :=
  let n : ℤ := round (q * 10)
  (if n < 0 then "-" else "") ++ natStr (n.natAbs / 10) ++ "." ++ natStr (n.natAbs % 10)

/-- `pop_change_pct = (pop_change / prev...) * 100` (lines 136–137). -/
def popChangePct (curr prev : ℚ) : ℚ :=
  (curr - prev) / prev * 100

/-- One `st.metric` call: label, shown value, shown delta. -/
structure Metric where
  label : String
  value : String
  delta : String
deriving DecidableEq

/-- The population metric's delta string (line 141):
`"-"` in the first-year case, else
`f"{format_number(pop_change)} ({pop_change_pct:.1f}%)"`. -/
def popDeltaStr (yd pd : Record) (isFirstYear : Bool) : String :=
  if isFirstYear then "-"
  else formatNumber (some (yd.pop - pd.pop)) ++ " (" ++
    fmt1 (popChangePct yd.pop pd.pop) ++ "%)"

/-- Delta string of the plain metrics: `"-"` in the first-year case,
else `format_number` of the difference. -/
def deltaStr (curr prev : ℚ) (isFirstYear : Bool) : String :=
  if isFirstYear then "-" else formatNumber (some (curr - prev))

/-- `display_metrics` (lines 131–252): the sequence of `st.metric`
widgets, in source order. -/
def displayMetrics (yd pd : Record) (isFirstYear : Bool) : List Metric :=
  [ ⟨"Total Population", formatNumber (some yd.pop), popDeltaStr yd pd isFirstYear⟩,
    ⟨"total arrivals", formatNumber (some yd.totalArrivals),
      deltaStr yd.totalArrivals pd.totalArrivals isFirstYear⟩,
    ⟨"international immigration", formatNumber (some yd.immigration),
      deltaStr yd.immigration pd.immigration isFirstYear⟩,
    ⟨"municipal arrivals", formatNumber (some yd.munArrivals),
      deltaStr yd.munArrivals pd.munArrivals isFirstYear⟩,
    ⟨"total departures", formatNumber (some yd.totalDepartures),
      deltaStr yd.totalDepartures pd.totalDepartures isFirstYear⟩,
    ⟨"international emigration", formatNumber (some yd.emigration),
      deltaStr yd.emigration pd.emigration isFirstYear⟩,
    ⟨"municipal departures", formatNumber (some yd.munDepartures),
      deltaStr yd.munDepartures pd.munDepartures isFirstYear⟩,
    ⟨"total movement balance",
      formatNumber (some (yd.totalArrivals - yd.totalDepartures)),
      deltaStr (yd.totalArrivals - yd.totalDepartures)
        (pd.totalArrivals - pd.totalDepartures) isFirstYear⟩,
    ⟨"international migration balance",
      formatNumber (some (yd.immigration - yd.emigration)),
      deltaStr (yd.immigration - yd.emigration)
        (pd.immigration - pd.emigration) isFirstYear⟩,
    ⟨"municipal migration balance",
      formatNumber (some (yd.munArrivals - yd.munDepartures)),
      deltaStr (yd.munArrivals - yd.munDepartures)
        (pd.munArrivals - pd.munDepartures) isFirstYear⟩,
    ⟨"natural change", formatNumber (some yd.naturalIncrease),
      deltaStr yd.naturalIncrease pd.naturalIncrease isFirstYear⟩,
    ⟨"births", formatNumber (some yd.liveBorn),
      deltaStr yd.liveBorn pd.liveBorn isFirstYear⟩,
    ⟨"deaths", formatNumber (some yd.deaths),
      deltaStr yd.deaths pd.deaths isFirstYear⟩ ]

/-- Lines 619–623: copy the current row and set every numeric column to
zero; the year column (`Periods Label`) is numeric too, the label
columns stay. -/
def zeroNumeric (r : Record) : Record :=
  { r with
    year := 0
    popDensity := 0
    liveBorn := 0
    deaths := 0
    naturalIncrease := 0
    totalArrivals := 0
    immigration := 0
    munArrivals := 0
    totalDepartures := 0
    emigration := 0
    munDepartures := 0
    pop := 0 }

/-- The year-comparison flow of `main` (lines 609–626) over the
region-filtered data: pick the selected year's row (`.iloc[0]`), compare
with the prior year's row if present, else with the zeroed copy under
the first-year flag.  `none` when the selected year has no row (the UI
only offers available years). -/
def metricsAt (data : List Record) (selectedYear : ℤ) : Option (List Metric) :=
  match (data.filter (fun r => r.year == selectedYear)).head? with
  | none => none
  | some yd =>
    match (data.filter (fun r => r.year == selectedYear - 1)).head? with
    | some pd => some (displayMetrics yd pd false)
    | none => some (displayMetrics yd (zeroNumeric yd) true)

/-- The delta string of the first widget (the Total Population metric)
of a computed metrics list. -/
def firstDelta (ms : Option (List Metric)) : Option String :=
  ms.map (fun l => (l.getD 0 ⟨"", "", ""⟩).delta)

/-! ### Concrete example datasets used by witnesses and counterexamples -/

/-- One province with linearly increasing population. -/
def dfIncreasing : List Record :=
  [mkRow "Noord-Holland (PV)" 0 10, mkRow "Noord-Holland (PV)" 1 20,
   mkRow "Noord-Holland (PV)" 2 30]

/-- One province with population dropping to zero: its quadratic
extrapolation is negative. -/
def dfDeclining : List Record :=
  [mkRow "Flevoland (PV)" 0 100, mkRow "Flevoland (PV)" 1 50,
   mkRow "Flevoland (PV)" 2 0]

/-- National rows with a gap year (2011 missing). -/
def dfGapNational : List Record :=
  [mkRow "The Netherlands" 2010 1, mkRow "The Netherlands" 2012 2]

/-- National rows with contiguous years. -/
def dfContiguousNational : List Record :=
  [mkRow "The Netherlands" 2020 1, mkRow "The Netherlands" 2021 2,
   mkRow "The Netherlands" 2022 3]

/-- A region-filtered metrics dataset with only one year on record. -/
def dataSingleYear : List Record :=
  [mkRow "Amsterdam" 2020 100]

/-- A region-filtered metrics dataset with two consecutive years. -/
def dataTwoYears : List Record :=
  [mkRow "Amsterdam" 2019 50, mkRow "Amsterdam" 2020 100]

/-! ### Least-squares facts -/

/-- Orthogonal decomposition of the sum of squared errors: the error of
any candidate `c'` splits into the error of `c`, the energy of the
difference quadratic, and a cross term governed by the normal-equation
residuals of `c`. -/
theorem sse_decomp (pts : List (ℚ × ℚ)) (c c' : ℚ × ℚ × ℚ) :
    SSE pts c' = SSE pts c +
      (pts.map (fun p => (evalQuad c p.1 - evalQuad c' p.1) ^ 2)).sum +
      2 * ((c.1 - c'.1) * normalRes pts c 0 + (c.2.1 - c'.2.1) * normalRes pts c 1 +
        (c.2.2 - c'.2.2) * normalRes pts c 2) := by
  induction pts with
  | nil => simp [SSE, normalRes]
  | cons p pts ih =>
      simp only [SSE, normalRes, List.map_cons, List.sum_cons] at *
      rw [show ((pts.map fun p => (p.2 - evalQuad c' p.1) ^ 2).sum) =
        (pts.map fun p => (p.2 - evalQuad c p.1) ^ 2).sum +
        (pts.map (fun p => (evalQuad c p.1 - evalQuad c' p.1) ^ 2)).sum +
        2 * ((c.1 - c'.1) * (pts.map fun p => p.1 ^ 0 * (p.2 - evalQuad c p.1)).sum +
          (c.2.1 - c'.2.1) * (pts.map fun p => p.1 ^ 1 * (p.2 - evalQuad c p.1)).sum +
          (c.2.2 - c'.2.2) * (pts.map fun p => p.1 ^ 2 * (p.2 - evalQuad c p.1)).sum) from ih]
      simp only [evalQuad]
      ring

/-- A quadratic whose normal-equation residuals vanish is a global
least-squares minimizer. -/
theorem normal_imp_ls (pts : List (ℚ × ℚ)) (c : ℚ × ℚ × ℚ)
    (h0 : normalRes pts c 0 = 0) (h1 : normalRes pts c 1 = 0)
    (h2 : normalRes pts c 2 = 0) : IsLeastSquares pts c := by
  intro c'
  have hd := sse_decomp pts c c'
  have hnn : 0 ≤ (pts.map (fun p => (evalQuad c p.1 - evalQuad c' p.1) ^ 2)).sum := by
    apply List.sum_nonneg
    intro x hx
    obtain ⟨p, _, rfl⟩ := List.mem_map.mp hx
    positivity
  rw [h0, h1, h2] at hd
  linarith

/-- Closed form of the normal-equation residuals in terms of the power
sums and moments. -/
theorem normalRes_eq (pts : List (ℚ × ℚ)) (c : ℚ × ℚ × ℚ) (k : ℕ) :
    normalRes pts c k = momS pts k -
      (c.1 * powS pts k + c.2.1 * powS pts (k + 1) + c.2.2 * powS pts (k + 2)) := by
  induction pts with
  | nil => simp [normalRes, momS, powS]
  | cons p pts ih =>
      simp only [normalRes, momS, powS, List.map_cons, List.sum_cons] at *
      rw [show (pts.map fun p => p.1 ^ k * (p.2 - evalQuad c p.1)).sum =
        (pts.map fun p => p.2 * p.1 ^ k).sum -
          (c.1 * (pts.map fun p => p.1 ^ k).sum +
            c.2.1 * (pts.map fun p => p.1 ^ (k + 1)).sum +
            c.2.2 * (pts.map fun p => p.1 ^ (k + 2)).sum) from ih]
      simp only [evalQuad]
      ring

/-- Cramer's-rule solution satisfies the normal equations whenever the
normal matrix is invertible. -/
theorem cramer_normal (pts : List (ℚ × ℚ)) (hdet : detM pts ≠ 0) (k : ℕ) (hk : k ≤ 2) :
    normalRes pts (cramerFit pts) k = 0 := by
  rw [normalRes_eq]
  simp only [cramerFit]
  interval_cases k <;>
    (simp only [detM] at hdet ⊢; field_simp; ring)

/-- The fit the program computes is always a least-squares fit in the
invertible case. -/
theorem fitQuadratic_ls_of_det (pts : List (ℚ × ℚ)) (hdet : detM pts ≠ 0) :
    IsLeastSquares pts (fitQuadratic pts) := by
  have h : fitQuadratic pts = cramerFit pts := by
    simp [fitQuadratic, hdet]
  rw [h]
  exact normal_imp_ls pts _ (cramer_normal pts hdet 0 (by norm_num))
    (cramer_normal pts hdet 1 (by norm_num)) (cramer_normal pts hdet 2 (by norm_num))

/-! ### List plumbing lemmas -/

theorem fitAndPredict_length (pts : List (ℚ × ℚ)) (ts : List ℤ) :
    (fitAndPredict pts ts).length = ts.length := by
  simp only [fitAndPredict, List.length_map]

theorem futureYears_length (df : List Record) : (futureYears df).length = 10 := by
  simp only [futureYears, List.length_map, List.length_range]

theorem zipWith_add_getD :
    ∀ (l₁ l₂ : List ℚ) (i : ℕ), i < l₁.length → i < l₂.length →
      (List.zipWith (· + ·) l₁ l₂).getD i 0 = l₁.getD i 0 + l₂.getD i 0 := by
  intro l₁
  induction l₁ with
  | nil => intro l₂ i h₁; simp at h₁
  | cons a l₁ ih =>
      intro l₂ i h₁ h₂
      cases l₂ with
      | nil => simp at h₂
      | cons b l₂ =>
          cases i with
          | zero => simp
          | succ i =>
              simp only [List.zipWith_cons_cons, List.getD_cons_succ]
              exact ih l₂ i (by simpa using h₁) (by simpa using h₂)

theorem foldr_zipWith_length (ls : List (List ℚ))
    (h : ∀ l ∈ ls, l.length = 10) :
    (ls.foldr (fun l acc => List.zipWith (· + ·) l acc)
      (List.replicate 10 0)).length = 10 := by
  induction ls with
  | nil => simp
  | cons l ls ih =>
      have hl : l.length = 10 := h l (by simp)
      have hrec := ih (fun l hm => h l (by simp [hm]))
      simp only [List.foldr_cons]
      rw [List.length_zipWith, hl, hrec]
      exact min_self 10

theorem foldr_zipWith_getD (ls : List (List ℚ)) (i : ℕ) (hi : i < 10)
    (h : ∀ l ∈ ls, l.length = 10) :
    (ls.foldr (fun l acc => List.zipWith (· + ·) l acc)
      (List.replicate 10 0)).getD i 0 =
      (ls.map (fun l => l.getD i 0)).sum := by
  induction ls with
  | nil =>
      simp only [List.foldr_nil, List.map_nil, List.sum_nil]
      rw [List.getD_eq_getElem?_getD, List.getElem?_getD_replicate_default_eq]
  | cons l ls ih =>
      have hl : l.length = 10 := h l (by simp)
      have htail : ∀ l' ∈ ls, l'.length = 10 := fun l' hm => h l' (by simp [hm])
      simp only [List.foldr_cons, List.map_cons, List.sum_cons]
      rw [zipWith_add_getD _ _ i (by omega) (by rw [foldr_zipWith_length ls htail]; omega),
        ih htail]

theorem uniqueFirstAux_mem (a : String) :
    ∀ (fuel : ℕ) (l : List String), l.length ≤ fuel →
      (a ∈ uniqueFirstAux fuel l ↔ a ∈ l) := by
  intro fuel
  induction fuel with
  | zero =>
      intro l hl
      rw [Nat.le_zero, List.length_eq_zero] at hl
      subst hl
      simp [uniqueFirstAux]
  | succ fuel ih =>
      intro l hl
      cases l with
      | nil => simp [uniqueFirstAux]
      | cons x xs =>
          simp only [uniqueFirstAux, List.mem_cons]
          rw [ih (xs.filter (fun s => s != x))
            (le_trans (List.length_filter_le _ _) (by simpa using hl))]
          simp only [List.mem_filter, bne_iff_ne]
          constructor
          · rintro (rfl | ⟨h, -⟩)
            · exact Or.inl rfl
            · exact Or.inr h
          · rintro (rfl | h)
            · exact Or.inl rfl
            · by_cases hax : a = x
              · exact Or.inl hax
              · exact Or.inr ⟨h, hax⟩

theorem mem_uniqueFirst (a : String) (l : List String) :
    a ∈ uniqueFirst l ↔ a ∈ l :=
  uniqueFirstAux_mem a l.length l le_rfl

theorem totalPredictions_length (df : List Record) :
    (totalPredictions df).length = 10 := by
  apply foldr_zipWith_length
  intro l hl
  obtain ⟨p, -, rfl⟩ := List.mem_map.mp hl
  rw [nationalLoopPredictions, fitAndPredict_length, futureYears_length]

/-- Indexing the reversed second half of a `front ++ back.reverse`
polygon: vertex `19 - i` carries `back`'s entry `i`. -/
theorem append_reverse_getD {α : Type} (l₁ l₂ : List α) (d : α) (i : ℕ)
    (h₁ : l₁.length = 10) (h₂ : l₂.length = 10) (hi : i < 10) :
    (l₁ ++ l₂.reverse).getD (19 - i) d = l₂.getD i d := by
  rw [List.getD_append_right _ _ _ _ (by omega)]
  have h9 : 19 - i - l₁.length = 9 - i := by omega
  rw [h9, List.getD_eq_getElem _ _ (by simp [List.length_reverse]; omega),
    List.getD_eq_getElem _ _ (by omega), List.getElem_reverse]
  congr 1
  omega

theorem map_mul_getD (P : List ℚ) (c : ℚ) (i : ℕ) (hi : i < P.length) :
    (P.map (fun p => p * c)).getD i 0 = P.getD i 0 * c := by
  rw [List.getD_eq_getElem _ _ (by simpa using hi), List.getD_eq_getElem _ _ hi,
    List.getElem_map]

/-! ### Contiguity lemmas -/

theorem chainB_append (xs ys : List ℤ) (v w : ℤ)
    (hxs : chainB xs = true) (hys : chainB ys = true)
    (hv : xs.getLast? = some v) (hw : ys.head? = some w) (hlink : v + 1 = w) :
    chainB (xs ++ ys) = true := by
  induction xs with
  | nil => simp at hv
  | cons a xs ih =>
      cases xs with
      | nil =>
          cases ys with
          | nil => simp at hw
          | cons b t =>
              simp only [List.getLast?_singleton, Option.some.injEq] at hv
              simp only [List.head?_cons, Option.some.injEq] at hw
              subst hv hw
              simpa [chainB, hlink] using hys
      | cons a' xs' =>
          simp only [chainB, Bool.and_eq_true, beq_iff_eq] at hxs
          rw [List.getLast?_cons_cons] at hv
          simp only [List.cons_append, chainB, Bool.and_eq_true, beq_iff_eq]
          exact ⟨hxs.1, by simpa using ih hxs.2 hv⟩

theorem chainB_futureYears (df : List Record) :
    chainB (futureYears df) = true := by
  simp only [futureYears, List.range_succ, List.range_zero, List.nil_append,
    List.cons_append, List.map_cons, List.map_nil, List.map_append, chainB,
    Bool.and_eq_true, beq_iff_eq]
  push_cast
  ring_nf
  simp

theorem futureYears_head (df : List Record) :
    (futureYears df).head? = some (lastHistoricalYear df + 1) := by
  simp only [futureYears, List.range_succ, List.range_zero, List.nil_append,
    List.cons_append, List.map_cons, List.map_nil, List.map_append, List.head?_cons,
    Option.some.injEq]
  norm_num

/-! ### Rank-deficient cases -/

theorem detM_singleton (p : ℚ × ℚ) : detM [p] = 0 := by
  simp [detM, powS]
  ring

theorem detM_pair (p q : ℚ × ℚ) : detM [p, q] = 0 := by
  simp [detM, powS]
  ring

theorem degenerate_singleton_ls (p : ℚ × ℚ) :
    IsLeastSquares [p] (fitQuadratic [p]) := by
  have hfit : fitQuadratic [p] = (p.2, 0, 0) := by
    rw [fitQuadratic, if_pos (detM_singleton p)]
    simp [degenerateFit, groupMeanY]
  rw [hfit]
  refine normal_imp_ls _ _ ?_ ?_ ?_ <;> (simp [normalRes, evalQuad])

theorem degenerate_pair_ls (p q : ℚ × ℚ) :
    IsLeastSquares [p, q] (fitQuadratic [p, q]) := by
  have hdet := detM_pair p q
  by_cases hx : p.1 = q.1
  · have hfit : fitQuadratic [p, q] = ((p.2 + q.2) / 2, 0, 0) := by
      rw [fitQuadratic, if_pos hdet]
      simp only [degenerateFit, List.map_cons, List.map_nil]
      rw [List.dedup_cons_of_mem (by simp [hx])]
      simp [groupMeanY, hx]
    rw [hfit]
    refine normal_imp_ls _ _ ?_ ?_ ?_ <;>
    · simp only [normalRes, evalQuad, List.map_cons, List.map_nil, List.sum_cons,
        List.sum_nil, hx]
      ring
  · have hsub : q.1 - p.1 ≠ 0 := sub_ne_zero.mpr (Ne.symm hx)
    have hfit : fitQuadratic [p, q] =
        (p.2 - (q.2 - p.2) / (q.1 - p.1) * p.1, (q.2 - p.2) / (q.1 - p.1), 0) := by
      rw [fitQuadratic, if_pos hdet]
      simp only [degenerateFit, List.map_cons, List.map_nil]
      rw [List.dedup_cons_of_not_mem (by simp [hx])]
      simp [List.dedup_cons_of_not_mem, groupMeanY, hx, Ne.symm hx]
    rw [hfit]
    refine normal_imp_ls _ _ ?_ ?_ ?_ <;>
    · simp only [normalRes, evalQuad, List.map_cons, List.map_nil, List.sum_cons,
        List.sum_nil]
      field_simp
      ring

/-! ## The claims -/

/-- C1: for every region time series passed to the forecaster (whose
normal matrix is invertible, i.e. at least three distinct years), the
predicted values are the evaluations of a least-squares quadratic fit of
the (year, population) samples at exactly the ten years
`lastHistoricalYear + 1 .. lastHistoricalYear + 10`, in increasing
order. -/
theorem predictions_are_least_squares_quadratic_at_ten_future_years
    (df : List Record) (pts : List (ℚ × ℚ)) (hdet : detM pts ≠ 0) :
    ∃ c : ℚ × ℚ × ℚ, IsLeastSquares pts c ∧
      fitAndPredict pts (futureYears df) =
        (futureYears df).map (fun t => evalQuad c (t : ℚ)) ∧
      futureYears df =
        [lastHistoricalYear df + 1, lastHistoricalYear df + 2,
         lastHistoricalYear df + 3, lastHistoricalYear df + 4,
         lastHistoricalYear df + 5, lastHistoricalYear df + 6,
         lastHistoricalYear df + 7, lastHistoricalYear df + 8,
         lastHistoricalYear df + 9, lastHistoricalYear df + 10] := by
  refine ⟨fitQuadratic pts, fitQuadratic_ls_of_det pts hdet, rfl, ?_⟩
  simp [futureYears, List.range_succ]
  omega

/-- Witness for C1 at a concrete three-point series. -/
theorem predictions_are_least_squares_quadratic_at_ten_future_years_witness :
    detM (seriesOf dfIncreasing) ≠ 0 ∧
      ∃ c : ℚ × ℚ × ℚ, IsLeastSquares (seriesOf dfIncreasing) c ∧
        fitAndPredict (seriesOf dfIncreasing) (futureYears dfIncreasing) =
          (futureYears dfIncreasing).map (fun t => evalQuad c (t : ℚ)) ∧
        futureYears dfIncreasing =
          [lastHistoricalYear dfIncreasing + 1, lastHistoricalYear dfIncreasing + 2,
           lastHistoricalYear dfIncreasing + 3, lastHistoricalYear dfIncreasing + 4,
           lastHistoricalYear dfIncreasing + 5, lastHistoricalYear dfIncreasing + 6,
           lastHistoricalYear dfIncreasing + 7, lastHistoricalYear dfIncreasing + 8,
           lastHistoricalYear dfIncreasing + 9, lastHistoricalYear dfIncreasing + 10] :=
  have hdet : detM (seriesOf dfIncreasing) ≠ 0 := by
    norm_num [detM, powS, seriesOf, dfIncreasing, mkRow]
  ⟨hdet, predictions_are_least_squares_quadratic_at_ten_future_years dfIncreasing
    (seriesOf dfIncreasing) hdet⟩

/-- C2: the national forecast value at each future year is the sum, over
the regions whose label contains `"(PV)"`, of that region's
independently fitted prediction at that year; the iterated regions are
exactly the `"(PV)"`-labelled ones of the dataset.  (The national
series enters the chart only as the historical trace; it is never
fitted: `totalPredictions` is built solely from the per-province
fits.) -/
theorem national_forecast_is_sum_of_province_fits
    (df : List Record) (i : ℕ) (hi : i < 10) :
    (totalPredictions df).getD i 0 =
      ((provinceList df).map
        (fun p => (nationalLoopPredictions df p).getD i 0)).sum ∧
    (∀ p ∈ provinceList df, containsStr "(PV)" p = true) ∧
    (∀ r ∈ df, containsStr "(PV)" r.region = true →
      r.region ∈ provinceList df) := by
  refine ⟨?_, ?_, ?_⟩
  · have hlen : ∀ l ∈ allPredictions df, l.length = 10 := by
      intro l hl
      obtain ⟨p, -, rfl⟩ := List.mem_map.mp hl
      rw [nationalLoopPredictions, fitAndPredict_length, futureYears_length]
    rw [totalPredictions, foldr_zipWith_getD _ i hi hlen, allPredictions, List.map_map]
    rfl
  · intro p hp
    rw [provinceList, mem_uniqueFirst] at hp
    obtain ⟨r, hr, rfl⟩ := List.mem_map.mp hp
    exact (List.mem_filter.mp hr).2
  · intro r hr hpv
    rw [provinceList, mem_uniqueFirst]
    exact List.mem_map.mpr ⟨r, List.mem_filter.mpr ⟨hr, hpv⟩, rfl⟩

/-- Witness for C2 at a concrete dataset and the first future year. -/
theorem national_forecast_is_sum_of_province_fits_witness :
    (0 : ℕ) < 10 ∧
      ((totalPredictions dfIncreasing).getD 0 0 =
        ((provinceList dfIncreasing).map
          (fun p => (nationalLoopPredictions dfIncreasing p).getD 0 0)).sum ∧
      (∀ p ∈ provinceList dfIncreasing, containsStr "(PV)" p = true) ∧
      (∀ r ∈ dfIncreasing, containsStr "(PV)" r.region = true →
        r.region ∈ provinceList dfIncreasing)) :=
  ⟨by norm_num,
    national_forecast_is_sum_of_province_fits dfIncreasing 0 (by norm_num)⟩

/-- C3: the confidence polygon is built elementwise from the prediction
alone: at each future year index `i` its upper vertex (index `i`) is
`prediction * 1.05` and its lower vertex (index `19 - i`, same year) is
`prediction * 0.95`.  No residual or other statistic enters: the band is
a function of `totalPredictions` only. -/
theorem confidence_band_is_fixed_five_percent_envelope
    (df : List Record) (i : ℕ) (hi : i < 10) :
    (confY df).getD i 0 = (totalPredictions df).getD i 0 * 1.05 ∧
    (confY df).getD (19 - i) 0 = (totalPredictions df).getD i 0 * 0.95 ∧
    (confX df).getD i 0 = (futureYears df).getD i 0 ∧
    (confX df).getD (19 - i) 0 = (futureYears df).getD i 0 := by
  have hP := totalPredictions_length df
  have hY := futureYears_length df
  refine ⟨?_, ?_, ?_, ?_⟩
  · rw [confY, List.getD_append _ _ _ _ (by simp [hP]; omega),
      map_mul_getD _ _ _ (by omega)]
  · rw [confY, append_reverse_getD _ _ _ i (by simp [hP]) (by simp [hP]) hi,
      map_mul_getD _ _ _ (by omega)]
  · rw [confX, List.getD_append _ _ _ _ (by omega)]
  · rw [confX, append_reverse_getD _ _ _ i hY hY hi]

/-- Witness for C3 at a concrete dataset and the first future year. -/
theorem confidence_band_is_fixed_five_percent_envelope_witness :
    (0 : ℕ) < 10 ∧
      ((confY dfIncreasing).getD 0 0 = (totalPredictions dfIncreasing).getD 0 0 * 1.05 ∧
      (confY dfIncreasing).getD 19 0 = (totalPredictions dfIncreasing).getD 0 0 * 0.95 ∧
      (confX dfIncreasing).getD 0 0 = (futureYears dfIncreasing).getD 0 0 ∧
      (confX dfIncreasing).getD 19 0 = (futureYears dfIncreasing).getD 0 0) :=
  ⟨by norm_num,
    confidence_band_is_fixed_five_percent_envelope dfIncreasing 0 (by norm_num)⟩

/-- C4 counterexample: on a dataset whose single province's population
falls to zero, the fitted quadratic extrapolates negative predictions,
and the band's lower bound `prediction * 0.95` lies strictly above the
prediction: `lower <= prediction` fails at the first forecast point. -/
theorem band_lower_bound_can_exceed_prediction :
    ¬ ((confY dfDeclining).getD 19 0 ≤ (totalPredictions dfDeclining).getD 0 0) := by
  norm_num [confY, totalPredictions, allPredictions, provinceList, pvRows,
    nationalLoopPredictions, fitAndPredict, fitQuadratic, detM, cramerFit, powS, momS,
    seriesOf, dfDeclining, mkRow, regionRows, uniqueFirst, uniqueFirstAux, futureYears,
    lastHistoricalYear, evalQuad, containsStr, infixAt, List.range_succ, List.zipWith,
    List.replicate]

/-- C4 amended: at every forecast point whose prediction is nonnegative
(every realistic population forecast), the band brackets the prediction:
`lower ≤ prediction ≤ upper`. -/
theorem band_brackets_nonnegative_predictions
    (df : List Record) (i : ℕ) (hi : i < 10)
    (hpos : 0 ≤ (totalPredictions df).getD i 0) :
    (confY df).getD (19 - i) 0 ≤ (totalPredictions df).getD i 0 ∧
    (totalPredictions df).getD i 0 ≤ (confY df).getD i 0 := by
  obtain ⟨hup, hlo, -, -⟩ := confidence_band_is_fixed_five_percent_envelope df i hi
  rw [hup, hlo]
  constructor <;> nlinarith

/-- Witness for the amended C4 on a growing province. -/
theorem band_brackets_nonnegative_predictions_witness :
    ((0 : ℕ) < 10 ∧ 0 ≤ (totalPredictions dfIncreasing).getD 0 0) ∧
      ((confY dfIncreasing).getD 19 0 ≤ (totalPredictions dfIncreasing).getD 0 0 ∧
        (totalPredictions dfIncreasing).getD 0 0 ≤ (confY dfIncreasing).getD 0 0) :=
  have hpos : 0 ≤ (totalPredictions dfIncreasing).getD 0 0 := by
    norm_num [totalPredictions, allPredictions, provinceList, pvRows,
      nationalLoopPredictions, fitAndPredict, fitQuadratic, detM, cramerFit, powS, momS,
      seriesOf, dfIncreasing, mkRow, regionRows, uniqueFirst, uniqueFirstAux, futureYears,
      lastHistoricalYear, evalQuad, containsStr, infixAt, List.range_succ, List.zipWith,
      List.replicate]
  ⟨⟨by norm_num, hpos⟩,
    band_brackets_nonnegative_predictions dfIncreasing 0 (by norm_num) hpos⟩

/-- C5 counterexample: when the historical national data has a gap year
(here 2011 is missing), the full forecast series is not contiguous, so
the invariant fails as stated for arbitrary input data. -/
theorem full_series_not_contiguous_on_gap :
    chainB (fullSeriesYears dfGapNational) = false := by decide

/-- C5 amended: provided the historical (national) years are themselves
contiguous and end at the dataset-wide maximum year, the full forecast
series is contiguous and strictly increasing by one, and the first
predicted year is the last historical year plus one. -/
theorem full_series_contiguous_of_contiguous_history (df : List Record)
    (hchain : chainB (historicalYears df) = true)
    (hlast : (historicalYears df).getLast? = some (lastHistoricalYear df)) :
    chainB (fullSeriesYears df) = true ∧
      (futureYears df).head? = some (lastHistoricalYear df + 1) := by
  refine ⟨?_, futureYears_head df⟩
  exact chainB_append _ _ (lastHistoricalYear df) (lastHistoricalYear df + 1)
    hchain (chainB_futureYears df) hlast (futureYears_head df) rfl

/-- Witness for the amended C5 on gap-free national data. -/
theorem full_series_contiguous_of_contiguous_history_witness :
    (chainB (historicalYears dfContiguousNational) = true ∧
      (historicalYears dfContiguousNational).getLast? =
        some (lastHistoricalYear dfContiguousNational)) ∧
      (chainB (fullSeriesYears dfContiguousNational) = true ∧
        (futureYears dfContiguousNational).head? =
          some (lastHistoricalYear dfContiguousNational + 1)) :=
  ⟨⟨by decide, by decide⟩,
    full_series_contiguous_of_contiguous_history dfContiguousNational
      (by decide) (by decide)⟩

/-- C6 counterexample: with no record for the prior year, the delta is
reported as the placeholder `"-"`, not as `"N/A"` as claimed (the code
path also never routes the delta through `format_number`'s NaN check). -/
theorem missing_prev_delta_is_dash_not_na :
    dataSingleYear.filter (fun r => r.year == 2019) = [] ∧
      firstDelta (metricsAt dataSingleYear 2020) = some "-" ∧
      ("-" : String) ≠ "N/A" := by decide

/-- C6 amended: when both the selected and the prior year have records
and the prior population is nonzero, the population delta shown is
`format_number(curr - prev)` followed by the percentage
`(curr - prev) / prev * 100` rendered to one decimal; when the prior
year has no record, the delta display is the suppression placeholder
`"-"` (not `"N/A"`).  (When the prior value is zero and present, the
Python code displays the float `inf`/`nan` percentage, which the exact
rational embedding does not model; that case is excluded here.) -/
theorem delta_is_pct_formula_or_dash (data : List Record) (y : ℤ)
    (yd pd : Record)
    (hyd : (data.filter (fun r => r.year == y)).head? = some yd) :
    ((data.filter (fun r => r.year == y - 1)).head? = some pd → pd.pop ≠ 0 →
      firstDelta (metricsAt data y) =
        some (formatNumber (some (yd.pop - pd.pop)) ++ " (" ++
          fmt1 ((yd.pop - pd.pop) / pd.pop * 100) ++ "%)")) ∧
    (data.filter (fun r => r.year == y - 1) = [] →
      firstDelta (metricsAt data y) = some "-") := by
  constructor
  · intro hpd _
    simp only [metricsAt, hyd, hpd, firstDelta, Option.map_some]
    simp [displayMetrics, popDeltaStr, popChangePct]
  · intro hempty
    simp only [metricsAt, hyd, hempty, List.head?_nil, firstDelta, Option.map_some]
    simp [displayMetrics, popDeltaStr]

/-- Witness for the amended C6: the formula branch on two consecutive
years, the suppression branch on a single-year dataset. -/
theorem delta_is_pct_formula_or_dash_witness :
    ((dataTwoYears.filter (fun r => r.year == 2020)).head? =
        some (mkRow "Amsterdam" 2020 100) ∧
      (dataTwoYears.filter (fun r => r.year == 2019)).head? =
        some (mkRow "Amsterdam" 2019 50) ∧
      (mkRow "Amsterdam" 2019 50).pop ≠ 0 ∧
      (dataSingleYear.filter (fun r => r.year == 2020)).head? =
        some (mkRow "Amsterdam" 2020 100) ∧
      dataSingleYear.filter (fun r => r.year == 2019) = []) ∧
      firstDelta (metricsAt dataTwoYears 2020) =
        some (formatNumber (some ((mkRow "Amsterdam" 2020 100).pop -
            (mkRow "Amsterdam" 2019 50).pop)) ++ " (" ++
          fmt1 (((mkRow "Amsterdam" 2020 100).pop -
            (mkRow "Amsterdam" 2019 50).pop) / (mkRow "Amsterdam" 2019 50).pop * 100)
          ++ "%)") ∧
      firstDelta (metricsAt dataSingleYear 2020) = some "-" :=
  ⟨⟨by decide, by decide, by norm_num [mkRow], by decide, by decide⟩,
    (delta_is_pct_formula_or_dash dataTwoYears 2020 (mkRow "Amsterdam" 2020 100)
      (mkRow "Amsterdam" 2019 50) (by decide)).1 (by decide)
      (by norm_num [mkRow]),
    (delta_is_pct_formula_or_dash dataSingleYear 2020 (mkRow "Amsterdam" 2020 100)
      (mkRow "Amsterdam" 2019 50) (by decide)).2 (by decide)⟩

/-- C7: when the prior year has no record in the filtered data, the
comparison row is the current row with every numeric column (including
the year) set to zero and the label columns kept, the comparison runs in
first-year mode, and every one of the thirteen metric deltas is the
placeholder `"-"` rather than a computed change. -/
theorem missing_prev_year_zeroes_and_suppresses_deltas
    (data : List Record) (y : ℤ) (yd : Record)
    (hyd : (data.filter (fun r => r.year == y)).head? = some yd)
    (hempty : data.filter (fun r => r.year == y - 1) = []) :
    metricsAt data y = some (displayMetrics yd (zeroNumeric yd) true) ∧
      (zeroNumeric yd).region = yd.region ∧
      (zeroNumeric yd).sexLabel = yd.sexLabel ∧
      (zeroNumeric yd).year = 0 ∧ (zeroNumeric yd).pop = 0 ∧
      (zeroNumeric yd).popDensity = 0 ∧ (zeroNumeric yd).liveBorn = 0 ∧
      (zeroNumeric yd).deaths = 0 ∧ (zeroNumeric yd).naturalIncrease = 0 ∧
      (zeroNumeric yd).totalArrivals = 0 ∧ (zeroNumeric yd).immigration = 0 ∧
      (zeroNumeric yd).munArrivals = 0 ∧ (zeroNumeric yd).totalDepartures = 0 ∧
      (zeroNumeric yd).emigration = 0 ∧ (zeroNumeric yd).munDepartures = 0 ∧
      ∀ m ∈ displayMetrics yd (zeroNumeric yd) true, m.delta = "-" := by
  refine ⟨?_, rfl, rfl, rfl, rfl, rfl, rfl, rfl, rfl, rfl, rfl, rfl, rfl, rfl, rfl, ?_⟩
  · simp only [metricsAt, hyd, hempty, List.head?_nil]
  · intro m hm
    fin_cases hm <;> rfl

/-- Witness for C7 on a single-year dataset. -/
theorem missing_prev_year_zeroes_and_suppresses_deltas_witness :
    ((dataSingleYear.filter (fun r => r.year == 2020)).head? =
        some (mkRow "Amsterdam" 2020 100) ∧
      dataSingleYear.filter (fun r => r.year == 2019) = []) ∧
      (metricsAt dataSingleYear 2020 =
        some (displayMetrics (mkRow "Amsterdam" 2020 100)
          (zeroNumeric (mkRow "Amsterdam" 2020 100)) true) ∧
      (zeroNumeric (mkRow "Amsterdam" 2020 100)).region =
        (mkRow "Amsterdam" 2020 100).region ∧
      (zeroNumeric (mkRow "Amsterdam" 2020 100)).sexLabel =
        (mkRow "Amsterdam" 2020 100).sexLabel ∧
      (zeroNumeric (mkRow "Amsterdam" 2020 100)).year = 0 ∧
      (zeroNumeric (mkRow "Amsterdam" 2020 100)).pop = 0 ∧
      (zeroNumeric (mkRow "Amsterdam" 2020 100)).popDensity = 0 ∧
      (zeroNumeric (mkRow "Amsterdam" 2020 100)).liveBorn = 0 ∧
      (zeroNumeric (mkRow "Amsterdam" 2020 100)).deaths = 0 ∧
      (zeroNumeric (mkRow "Amsterdam" 2020 100)).naturalIncrease = 0 ∧
      (zeroNumeric (mkRow "Amsterdam" 2020 100)).totalArrivals = 0 ∧
      (zeroNumeric (mkRow "Amsterdam" 2020 100)).immigration = 0 ∧
      (zeroNumeric (mkRow "Amsterdam" 2020 100)).munArrivals = 0 ∧
      (zeroNumeric (mkRow "Amsterdam" 2020 100)).totalDepartures = 0 ∧
      (zeroNumeric (mkRow "Amsterdam" 2020 100)).emigration = 0 ∧
      (zeroNumeric (mkRow "Amsterdam" 2020 100)).munDepartures = 0 ∧
      ∀ m ∈ displayMetrics (mkRow "Amsterdam" 2020 100)
        (zeroNumeric (mkRow "Amsterdam" 2020 100)) true, m.delta = "-") :=
  ⟨⟨by decide, by decide⟩,
    missing_prev_year_zeroes_and_suppresses_deltas dataSingleYear 2020
      (mkRow "Amsterdam" 2020 100) (by decide) (by decide)⟩

/-- C8: a region with fewer than 3 historical points is not rejected:
the forecaster still performs the (now rank-deficient) quadratic
least-squares fit — the computed coefficients still globally minimise
the sum of squared errors — and returns the ten extrapolated
predictions; no error path exists (the embedding is total, as is
scipy's `lstsq` on rank-deficient input). -/
theorem degenerate_series_still_fitted_and_predicted
    (pts : List (ℚ × ℚ)) (hne : pts ≠ []) (hlen : pts.length < 3) :
    IsLeastSquares pts (fitQuadratic pts) ∧
      ∀ df : List Record,
        fitAndPredict pts (futureYears df) =
          (futureYears df).map (fun t : ℤ => evalQuad (fitQuadratic pts) (t : ℚ)) ∧
        (fitAndPredict pts (futureYears df)).length = 10 := by
  refine ⟨?_, fun df => ⟨rfl, by rw [fitAndPredict_length, futureYears_length]⟩⟩
  match pts with
  | [] => exact absurd rfl hne
  | [p] => exact degenerate_singleton_ls p
  | [p, q] => exact degenerate_pair_ls p q
  | a :: b :: c :: t => exact absurd hlen (by simp)

/-- Witness for C8 on a two-point series. -/
theorem degenerate_series_still_fitted_and_predicted_witness :
    (([((0 : ℚ), (5 : ℚ)), ((1 : ℚ), (7 : ℚ))] : List (ℚ × ℚ)) ≠ [] ∧
      ([((0 : ℚ), (5 : ℚ)), ((1 : ℚ), (7 : ℚ))] : List (ℚ × ℚ)).length < 3) ∧
      (IsLeastSquares [((0 : ℚ), (5 : ℚ)), ((1 : ℚ), (7 : ℚ))]
        (fitQuadratic [((0 : ℚ), (5 : ℚ)), ((1 : ℚ), (7 : ℚ))]) ∧
      ∀ df : List Record,
        fitAndPredict [((0 : ℚ), (5 : ℚ)), ((1 : ℚ), (7 : ℚ))] (futureYears df) =
          (futureYears df).map (fun t : ℤ =>
            evalQuad (fitQuadratic [((0 : ℚ), (5 : ℚ)), ((1 : ℚ), (7 : ℚ))]) (t : ℚ)) ∧
        (fitAndPredict [((0 : ℚ), (5 : ℚ)), ((1 : ℚ), (7 : ℚ))]
          (futureYears df)).length = 10) :=
  ⟨⟨by decide, by decide⟩,
    degenerate_series_still_fitted_and_predicted
      [((0 : ℚ), (5 : ℚ)), ((1 : ℚ), (7 : ℚ))] (by decide) (by decide)⟩

/-! ### Permutation invariance of the fit (for C9) -/

theorem powS_perm {pts₁ pts₂ : List (ℚ × ℚ)} (h : List.Perm pts₁ pts₂) (k : ℕ) :
    powS pts₁ k = powS pts₂ k :=
  (h.map (fun p : ℚ × ℚ => p.1 ^ k)).sum_eq

theorem momS_perm {pts₁ pts₂ : List (ℚ × ℚ)} (h : List.Perm pts₁ pts₂) (k : ℕ) :
    momS pts₁ k = momS pts₂ k :=
  (h.map (fun p : ℚ × ℚ => p.2 * p.1 ^ k)).sum_eq

theorem detM_perm {pts₁ pts₂ : List (ℚ × ℚ)} (h : List.Perm pts₁ pts₂) :
    detM pts₁ = detM pts₂ := by
  simp only [detM, powS_perm h]

theorem cramerFit_perm {pts₁ pts₂ : List (ℚ × ℚ)} (h : List.Perm pts₁ pts₂) :
    cramerFit pts₁ = cramerFit pts₂ := by
  simp only [cramerFit, detM, powS_perm h, momS_perm h]

theorem groupMeanY_perm {pts₁ pts₂ : List (ℚ × ℚ)} (h : List.Perm pts₁ pts₂) (x : ℚ) :
    groupMeanY pts₁ x = groupMeanY pts₂ x := by
  have hf := h.filter (fun p => p.1 == x)
  simp only [groupMeanY]
  rw [(hf.map (fun p => p.2)).sum_eq, hf.length_eq]

theorem perm_pair_cases (l : List ℚ) (a b : ℚ) (h : List.Perm l [a, b]) :
    l = [a, b] ∨ l = [b, a] := by
  rcases l with _ | ⟨c, _ | ⟨d, _ | ⟨e, t⟩⟩⟩
  · have := h.length_eq
    simp at this
  · have := h.length_eq
    simp at this
  · have hc : c ∈ [a, b] := h.mem_iff.mp (by simp)
    rcases (by simpa using hc : c = a ∨ c = b) with rfl | rfl
    · left
      have h2 : List.Perm [d] [b] := (List.perm_cons c).mp h
      rw [List.perm_singleton.mp h2]
    · right
      have h2 : List.Perm [d] [a] :=
        (List.perm_cons c).mp (h.trans (List.Perm.swap c a []))
      rw [List.perm_singleton.mp h2]
  · have := h.length_eq
    simp at this

theorem degenerateFit_perm {pts₁ pts₂ : List (ℚ × ℚ)} (h : List.Perm pts₁ pts₂) :
    degenerateFit pts₁ = degenerateFit pts₂ := by
  have hd : List.Perm ((pts₁.map (fun p => p.1)).dedup) ((pts₂.map (fun p => p.1)).dedup) :=
    (h.map (fun p => p.1)).dedup
  have hnd : ((pts₁.map (fun p => p.1)).dedup).Nodup := List.nodup_dedup _
  rcases hdd : (pts₁.map (fun p => p.1)).dedup with _ | ⟨x₁, _ | ⟨x₂, _ | ⟨x₃, rest⟩⟩⟩
  · rw [hdd] at hd
    have h2 : (pts₂.map (fun p => p.1)).dedup = [] := hd.symm.eq_nil
    simp only [degenerateFit]
    rw [hdd, h2]
  · rw [hdd] at hd
    have h2 : (pts₂.map (fun p => p.1)).dedup = [x₁] := List.perm_singleton.mp hd.symm
    simp only [degenerateFit]
    rw [hdd, h2]
    simp [groupMeanY_perm h]
  · rw [hdd] at hd hnd
    have hx : x₁ ≠ x₂ := by simpa using (List.nodup_cons.mp hnd).1
    rcases perm_pair_cases _ x₁ x₂ hd.symm with h2 | h2
    · simp only [degenerateFit]
      rw [hdd, h2]
      simp [groupMeanY_perm h]
    · simp only [degenerateFit]
      rw [hdd, h2]
      simp only [groupMeanY_perm h, Prod.mk.injEq]
      have hs1 : x₂ - x₁ ≠ 0 := sub_ne_zero.mpr (Ne.symm hx)
      have hs2 : x₁ - x₂ ≠ 0 := sub_ne_zero.mpr hx
      refine ⟨?_, ?_, trivial⟩ <;> (field_simp; ring)
  · rw [hdd] at hd
    have hlen : (pts₂.map (fun p => p.1)).dedup.length = rest.length + 3 := by
      simpa using hd.length_eq.symm
    rcases hteq : (pts₂.map (fun p => p.1)).dedup with _ | ⟨y₁, _ | ⟨y₂, _ | ⟨y₃, r₂⟩⟩⟩ <;>
      rw [hteq] at hlen
    · simp at hlen
    · simp at hlen
    · simp at hlen
    · simp only [degenerateFit]
      rw [hdd, hteq]

theorem fitQuadratic_perm {pts₁ pts₂ : List (ℚ × ℚ)} (h : List.Perm pts₁ pts₂) :
    fitQuadratic pts₁ = fitQuadratic pts₂ := by
  simp only [fitQuadratic, detM_perm h]
  by_cases hd : detM pts₂ = 0
  · simp [hd, degenerateFit_perm h]
  · simp [hd, cramerFit_perm h]

/-- Filtering for one `(PV)`-labelled province commutes with the
chart's province prefilter. -/
theorem regionRows_pvRows (df : List Record) (p : String)
    (hp : containsStr "(PV)" p = true) :
    regionRows (pvRows df) p = regionRows df p := by
  simp only [regionRows, pvRows, List.filter_filter]
  apply List.filter_congr
  intro r _
  by_cases h : r.region = p
  · simp [h, hp]
  · simp [h]

/-- C9: for the same dataset and the same province, the prediction
vector computed inside `create_prediction_chart`'s per-province loop
(rows in dataframe order) equals the one computed by
`create_provincial_prediction_chart` (rows sorted by year first): the
least-squares fit only depends on the multiset of samples. -/
theorem national_loop_matches_provincial_chart_predictions
    (df : List Record) (p : String) (hp : containsStr "(PV)" p = true) :
    nationalLoopPredictions df p = provincialPredictions df p := by
  rw [nationalLoopPredictions, provincialPredictions, regionRows_pvRows df p hp]
  have hperm : List.Perm (seriesOf (regionRows df p))
      (seriesOf (sortByYear (regionRows df p))) :=
    ((List.perm_insertionSort _ _).map _).symm
  simp only [fitAndPredict, fitQuadratic_perm hperm]

/-- Witness for C9 on a concrete province. -/
theorem national_loop_matches_provincial_chart_predictions_witness :
    containsStr "(PV)" "Noord-Holland (PV)" = true ∧
      nationalLoopPredictions dfIncreasing "Noord-Holland (PV)" =
        provincialPredictions dfIncreasing "Noord-Holland (PV)" :=
  ⟨by decide,
    national_loop_matches_provincial_chart_predictions dfIncreasing
      "Noord-Holland (PV)" (by decide)⟩

/-! ### `format_number` facts (for C10) -/

theorem digitChar_mem_digits (d : ℕ) :
    digitChar d ∈ ['0', '1', '2', '3', '4', '5', '6', '7', '8', '9'] := by
  rcases d with _ | _ | _ | _ | _ | _ | _ | _ | _ | d <;> simp [digitChar]

theorem natDigitsAux_subset (fuel : ℕ) :
    ∀ (m : ℕ), ∀ c ∈ natDigitsAux fuel m,
      c ∈ ['0', '1', '2', '3', '4', '5', '6', '7', '8', '9'] := by
  induction fuel with
  | zero => intro m c hc; simp [natDigitsAux] at hc
  | succ fuel ih =>
      intro m c hc
      match m with
      | 0 => simp [natDigitsAux] at hc
      | m + 1 =>
          simp only [natDigitsAux, List.mem_cons] at hc
          rcases hc with rfl | hc
          · exact digitChar_mem_digits _
          · exact ih _ c hc

theorem natDigitsRev_subset (m : ℕ) :
    ∀ c ∈ natDigitsRev m, c ∈ ['0', '1', '2', '3', '4', '5', '6', '7', '8', '9'] := by
  intro c hc
  rw [natDigitsRev] at hc
  split at hc
  · simp only [List.mem_singleton] at hc
    simp [hc]
  · exact natDigitsAux_subset m m c hc

theorem group3Aux_mem (fuel : ℕ) :
    ∀ (ds : List Char), ∀ c ∈ group3Aux fuel ds, c ∈ ds ∨ c = ',' := by
  induction fuel with
  | zero => intro ds c hc; exact Or.inl hc
  | succ fuel ih =>
      intro ds c hc
      rw [group3Aux] at hc
      split at hc
      · exact Or.inl hc
      · rcases List.mem_append.mp hc with h1 | h2
        · exact Or.inl (List.take_subset 3 ds h1)
        · rcases List.mem_cons.mp h2 with rfl | h3
          · exact Or.inr rfl
          · rcases ih _ c h3 with h4 | h4
            · exact Or.inl (List.drop_subset 3 ds h4)
            · exact Or.inr h4

theorem group3Aux_filter (fuel : ℕ) :
    ∀ (ds : List Char),
      (group3Aux fuel ds).filter (fun c => c != ',') =
        ds.filter (fun c => c != ',') := by
  induction fuel with
  | zero => intro ds; rfl
  | succ fuel ih =>
      intro ds
      rw [group3Aux]
      split
      · rfl
      · rw [List.filter_append, List.filter_cons]
        simp only [bne_self_eq_false, Bool.false_eq_true, if_false]
        rw [ih, ← List.filter_append, List.take_append_drop]

theorem natDigitsRev_no_comma (m : ℕ) :
    ∀ c ∈ natDigitsRev m, (c != ',') = true := by
  intro c hc
  have h := natDigitsRev_subset m c hc
  simp only [List.mem_cons, List.not_mem_nil, or_false] at h
  rcases h with rfl | rfl | rfl | rfl | rfl | rfl | rfl | rfl | rfl | rfl <;> rfl

/-- Stripping the inserted commas from `format_number`'s output recovers
the plain decimal string of the truncated integer. -/
theorem stripCommas_commaFormat (n : ℤ) :
    stripCommas (commaFormat n) = decimalRepr n := by
  apply String.ext
  simp only [stripCommas, commaFormat, decimalRepr, natStr, String.data_append]
  rw [List.filter_append]
  congr 1
  · split <;> rfl
  · show ((group3 (natDigitsRev n.natAbs)).reverse.filter fun c => c != ',') = _
    rw [List.filter_reverse, group3, group3Aux_filter,
      List.filter_eq_self.mpr (natDigitsRev_no_comma n.natAbs)]

theorem commaFormat_no_slash (n : ℤ) : '/' ∉ (commaFormat n).data := by
  intro hm
  simp only [commaFormat, String.data_append] at hm
  rcases List.mem_append.mp hm with h1 | h2
  · split at h1 <;> simp at h1
  · have h3 : '/' ∈ group3 (natDigitsRev n.natAbs) := by
      simpa using List.mem_reverse.mp h2
    rcases group3Aux_mem _ _ _ h3 with h4 | h4
    · have := natDigitsRev_subset _ _ h4
      simp at this
    · simp at h4

theorem truncInt_eq_floor (q : ℚ) (h : 0 ≤ q) : truncInt q = ⌊q⌋ := by
  rw [truncInt, Rat.floor_def]
  exact Int.tdiv_eq_ediv (Rat.num_nonneg.mpr h) (Int.natCast_nonneg q.den)

theorem truncInt_eq_ceil (q : ℚ) (h : q < 0) : truncInt q = ⌈q⌉ := by
  have h0 : 0 ≤ -q := by linarith
  have hneg := truncInt_eq_floor (-q) h0
  rw [truncInt, Rat.num_neg_eq_neg_num, Rat.neg_den, Int.neg_tdiv, Int.floor_neg]
    at hneg
  rw [truncInt]
  omega

/-- C10: `format_number` returns `"N/A"` exactly on NaN input; on every
number it returns the integer part (truncated toward zero: floor for
nonnegative, ceiling for negative values) rendered in decimal with
comma thousands separators (removing the commas recovers the plain
decimal string of that integer). -/
theorem format_number_na_iff_nan_and_truncated_commas :
    (∀ x : Option ℚ, formatNumber x = "N/A" ↔ x = none) ∧
    (∀ q : ℚ, stripCommas (formatNumber (some q)) = decimalRepr (truncInt q)) ∧
    (∀ q : ℚ, 0 ≤ q → truncInt q = ⌊q⌋) ∧
    (∀ q : ℚ, q < 0 → truncInt q = ⌈q⌉) := by
  refine ⟨?_, ?_, truncInt_eq_floor, truncInt_eq_ceil⟩
  · intro x
    cases x with
    | none => simp [formatNumber]
    | some q =>
        simp only [formatNumber]
        constructor
        · intro heq
          exfalso
          apply commaFormat_no_slash (truncInt q)
          rw [heq]
          decide
        · intro h
          exact absurd h (by simp)
  · intro q
    exact stripCommas_commaFormat (truncInt q)

/-- Witness for C10 at concrete inputs. -/
theorem format_number_na_iff_nan_and_truncated_commas_witness :
    (formatNumber (some (1234567 : ℚ)) = "N/A" ↔
      (some (1234567 : ℚ) : Option ℚ) = none) ∧
    stripCommas (formatNumber (some (-12347 / 10 : ℚ))) =
      decimalRepr (truncInt (-12347 / 10 : ℚ)) ∧
    (0 ≤ (7 / 2 : ℚ) ∧ truncInt (7 / 2 : ℚ) = ⌊(7 / 2 : ℚ)⌋) ∧
    ((-7 / 2 : ℚ) < 0 ∧ truncInt (-7 / 2 : ℚ) = ⌈(-7 / 2 : ℚ)⌉) :=
  ⟨format_number_na_iff_nan_and_truncated_commas.1 (some (1234567 : ℚ)),
    format_number_na_iff_nan_and_truncated_commas.2.1 (-12347 / 10 : ℚ),
    ⟨by norm_num,
      format_number_na_iff_nan_and_truncated_commas.2.2.1 (7 / 2 : ℚ) (by norm_num)⟩,
    ⟨by norm_num,
      format_number_na_iff_nan_and_truncated_commas.2.2.2 (-7 / 2 : ℚ) (by norm_num)⟩⟩

end PopDyn
